import Mathlib

/-!
Verification of the muse-types declaration package.

The repository is a set of ambient TypeScript declaration files describing
the API surface of the MUSE scripting engine.  The tree holds three
historical variants of the declaration set:

* variant A: the first declaration block of globals.d.ts, the earliest
  revision.  Its TimelineService.start requires the relative and repeat
  arguments, Devices.get returns a union of T with the string literal
  type null-as-a-string, and Services.get returns a union of T with
  undefined.  It has no NetLinx, Session or Smtp services and no Export
  surface.
* variant B: the second declaration block of globals.d.ts.  It adds the
  NetLinx, Session, Smtp and Diagnostics services, makes the trailing
  TimelineService.start arguments optional and returns plain T from the
  two lookup surfaces.
* variant C: the declaration block of the unnamed source file, the latest
  revision.  It adds the Export surface to Context, moves the program
  manifest into a Program namespace with disabled and script optional,
  and makes the event argument of every ICSP callback optional.

We embed the declared shapes as data of a small type language and settle
each claim by computation on that data.  A TypeScript-style assignability
checker over the embedded types formalises acceptance of argument values
for the structural compatibility claim.
-/

/-- A shallow embedding of the fragment of the TypeScript type language used
by the declaration files.  Function parameters and record fields carry an
optionality flag.  The recordStr constructor stands for the TypeScript
utility type Record with a string key. -/
inductive Ty where
| any : Ty
| unknown : Ty
| void_ : Ty
| undef : Ty
| boolean : Ty
| number : Ty
| string_ : Ty
| object_ : Ty
| lit : String → Ty
| tvar : String → Ty
| array : Ty → Ty
| readonly : Ty → Ty
| union : Ty → Ty → Ty
| inter : Ty → Ty → Ty
| recordStr : Ty → Ty
| fn : List (Ty × Bool) → Ty → Ty
| record : List (String × Ty × Bool) → Ty

/-- Look up a field of a record by name in a field list. -/
def lookupField : List (String × Ty × Bool) → String → Option (Ty × Bool)
| [], _ => none
| (m, t, o) :: rest, n => if n == m then some (t, o) else lookupField rest n

/-- The field of a record type, with its optionality flag. -/
def fieldOf : Ty → String → Option (Ty × Bool)
| Ty.record fs, n => lookupField fs n
| _, _ => none

/-- Whether a record type declares the named field. -/
def hasField (t : Ty) (n : String) : Bool :=
(fieldOf t n).isSome

/-- Whether a record type declares the named field as required. -/
def requiredField (t : Ty) (n : String) : Bool :=
match fieldOf t n with
| some (_, o) => !o
| none => false

/-- Whether a record type declares the named field as optional. -/
def optionalField (t : Ty) (n : String) : Bool :=
match fieldOf t n with
| some (_, o) => o
| none => false

/-- The field names of a record type, in declaration order. -/
def fieldNames : Ty → List String
| Ty.record fs => fs.map (fun f => f.1)
| _ => []

/-- The string literals of a union of literal types, left to right.  A leaf
that is not a string literal yields a marker so that the union is only
recognised when it is built from literals alone. -/
def litLeaves : Ty → List String
| Ty.union a b => litLeaves a ++ litLeaves b
| Ty.lit s => [s]
| _ => [("<nonlit>")]

/-- The effective type of a parameter or field: an optional slot also
admits undefined. -/
def eff (t : Ty) (o : Bool) : Ty :=
if o then Ty.union t Ty.undef else t

/-- Record assignability: every field demanded by the target must be
served by the source, with optional target fields allowed to be absent. -/
def fieldsSub (s : Ty → Ty → Bool) (fs gs : List (String × Ty × Bool)) : Bool :=
gs.all (fun g =>
  match g with
  | (n, t, o) =>
    match lookupField fs n with
    | some (t', o') => s (eff t' o') (eff t o)
    | none => o)

/-- Function parameter assignability, contravariant: the target must be
able to feed every parameter the source expects, and any source parameter
beyond the target arity must be optional. -/
def contraParams (s : Ty → Ty → Bool) : List (Ty × Bool) → List (Ty × Bool) → Bool
| [], _ => true
| (_, so) :: rest, [] => so && contraParams s rest []
| (ps, so) :: rest, (pt, tb) :: trest =>
  s (eff pt tb) (eff ps so) && contraParams s rest trest

/-- Fuel-indexed TypeScript-style assignability over the embedded type
language: is a value of the first type accepted where the second type is
expected.  The any type is assignable in both directions, unions on the
left split, unions on the right choose, intersections on the right demand
both parts, records use width subtyping and functions are contravariant in
their parameters with optional parameters admitting undefined. -/
def sub : Nat → Ty → Ty → Bool
| 0, _, _ => false
| _ + 1, _, Ty.any => true
| _ + 1, Ty.any, _ => true
| _ + 1, _, Ty.unknown => true
| f + 1, Ty.readonly a, t => sub f a t
| f + 1, s, Ty.readonly b => sub f s b
| f + 1, Ty.union a b, t => sub f a t && sub f b t
| f + 1, s, Ty.union a b => sub f s a || sub f s b
| f + 1, s, Ty.inter a b => sub f s a && sub f s b
| f + 1, Ty.inter a b, t => sub f a t || sub f b t
| _ + 1, Ty.string_, Ty.string_ => true
| _ + 1, Ty.number, Ty.number => true
| _ + 1, Ty.boolean, Ty.boolean => true
| _ + 1, Ty.void_, Ty.void_ => true
| _ + 1, Ty.undef, Ty.undef => true
| _ + 1, Ty.object_, Ty.object_ => true
| _ + 1, Ty.lit a, Ty.lit b => a == b
| _ + 1, Ty.lit _, Ty.string_ => true
| _ + 1, Ty.tvar a, Ty.tvar b => a == b
| f + 1, Ty.array a, Ty.array b => sub f a b
| f + 1, Ty.recordStr a, Ty.recordStr b => sub f a b
| f + 1, Ty.record fs, Ty.record gs => fieldsSub (sub f) fs gs
| _ + 1, Ty.record _, Ty.object_ => true
| _ + 1, Ty.fn _ _, Ty.object_ => true
| f + 1, Ty.fn ps r, Ty.fn qs r' =>
  contraParams (sub f) ps qs &&
    (match r' with
     | Ty.void_ => true
     | t => sub f r t)
| _ + 1, _, _ => false

/-- Assignability at a fixed fuel large enough for every type in the
declaration set. -/
def tsSub (s t : Ty) : Bool :=
sub 40 s t

/-- Look up a member of an API-surface member list by its role name. -/
def lookupTy : String → List (String × Ty) → Option Ty
| _, [] => none
| n, (m, t) :: rest => if n == m then some t else lookupTy n rest

/-- The number of required parameters of a parameter list. -/
def reqCount : List (Ty × Bool) → Nat
| [] => 0
| (_, o) :: rest => if o then reqCount rest else reqCount rest + 1

/-- Positionwise acceptance: every argument the earlier parameter list
accepts at a position is accepted by the later list at that position, and
the later list is at least as long. -/
def acceptParams : List (Ty × Bool) → List (Ty × Bool) → Bool
| [], _ => true
| _ :: _, [] => false
| (ps, so) :: rest, (pt, tb) :: trest =>
  tsSub (eff ps so) (eff pt tb) && acceptParams rest trest

/-- Call-site compatibility from an earlier declaration of a callable
member to a later one: the later declaration accepts every call the
earlier one accepted, both in arity and in argument values. -/
def callCompat : Ty → Ty → Bool
| Ty.fn ps _, Ty.fn qs _ =>
  Nat.ble (reqCount qs) (reqCount ps) && acceptParams ps qs
| _, _ => true

/-- The no-narrowing check between the member lists of two successive
variants: every callable member present in both keeps accepting all
previously accepted calls. -/
def noNarrowing (earlier later : List (String × Ty)) : Bool :=
earlier.all (fun p =>
  match lookupTy p.1 later with
  | some t' => callCompat p.2 t'
  | none => true)

/-- The no-narrowing check with a list of exempted member names. -/
def noNarrowingExcept (earlier later : List (String × Ty)) (ex : List String) : Bool :=
earlier.all (fun p =>
  ex.contains p.1 ||
    (match lookupTy p.1 later with
     | some t' => callCompat p.2 t'
     | none => true))

/-- Whether the named member is declared in both lists and the later
declaration narrows the accepted calls. -/
def narrowsAt (earlier later : List (String × Ty)) (n : String) : Bool :=
match lookupTy n earlier, lookupTy n later with
| some e, some l => !(callCompat e l)
| _, _ => false

/-- The callable member of a record type, unwrapped from an intersection
with the rest of the shape; a plain type is returned unchanged. -/
def callPart : Ty → Ty
| Ty.inter f _ => f
| t => t

/-- The type of a named member of a record, defaulting to undefined when
the member is absent. -/
def memberFn (t : Ty) (n : String) : Ty :=
match fieldOf t n with
| some (x, _) => x
| none => Ty.undef

/-- The message-logging function shape shared by every variant: a single
parameter of type any, returning void. -/
def msgFn : Ty :=
Ty.fn [(Ty.any, false)] Ty.void_

namespace MuseA

/-- Variant A log threshold enumeration, named MuseLogLevel in the source. -/
def MuseLogLevel : Ty :=
Ty.union
  (Ty.union (Ty.union (Ty.union (Ty.lit ("TRACE")) (Ty.lit ("DEBUG"))) (Ty.lit ("INFO")))
    (Ty.lit ("WARNING")))
  (Ty.lit ("ERROR"))

/-- Variant A Log interface: a level field and the five leveled methods. -/
def Log : Ty :=
Ty.record
  [("level", MuseLogLevel, false),
   ("trace", msgFn, false),
   ("debug", msgFn, false),
   ("info", msgFn, false),
   ("warn", msgFn, false),
   ("error", msgFn, false)]

/-- Variant A Devices interface; get returns the union of the type
parameter with the string literal type whose text is null. -/
def Devices : Ty :=
Ty.record
  [("get", Ty.fn [(Ty.string_, false)] (Ty.union (Ty.tvar ("T")) (Ty.lit ("null"))), false),
   ("has", Ty.fn [(Ty.string_, false)] Ty.boolean, false),
   ("ids", Ty.fn [] (Ty.array Ty.string_), false)]

/-- Variant A Services interface; get returns the union of the type
parameter with undefined. -/
def Services : Ty :=
Ty.record
  [("get", Ty.fn [(Ty.string_, false)] (Ty.union (Ty.tvar ("T")) Ty.undef), false)]

/-- Variant A provider enumeration, named MuseProvider in the source. -/
def MuseProvider : Ty :=
Ty.union (Ty.union (Ty.lit ("groovy")) (Ty.lit ("javascript"))) (Ty.lit ("python"))

/-- Variant A ProgramManifest record; disabled and script are required. -/
def ProgramManifest : Ty :=
Ty.record
  [("id", Ty.string_, false),
   ("name", Ty.union Ty.string_ Ty.undef, true),
   ("description", Ty.union Ty.string_ Ty.undef, true),
   ("version", Ty.union Ty.string_ Ty.undef, true),
   ("disabled", Ty.boolean, false),
   ("provider", MuseProvider, false),
   ("scope", Ty.union Ty.string_ Ty.undef, true),
   ("script", Ty.string_, false),
   ("envvars", Ty.union (Ty.recordStr Ty.string_) Ty.undef, true),
   ("files", Ty.union (Ty.array Ty.string_) Ty.undef, true),
   ("plugins", Ty.union (Ty.array Ty.string_) Ty.undef, true)]

/-- Variant A BaseEvent interface. -/
def BaseEvent : Ty :=
Ty.record
  [("path", Ty.string_, false),
   ("id", Ty.string_, false),
   ("arguments", Ty.record [("data", Ty.object_, false)], false),
   ("oldValue", Ty.object_, false),
   ("source", Ty.object_, false)]

/-- Variant A TimelineEvent: the intersection of BaseEvent with a record
refining the arguments payload. -/
def TimelineEvent : Ty :=
Ty.inter BaseEvent
  (Ty.record
    [("arguments",
      Ty.record
        [("data", Ty.object_, false),
         ("sequence", Ty.number, false),
         ("time", Ty.number, false),
         ("repetition", Ty.number, false)], false)])

/-- Variant A TimelineEventCallback: the event argument is optional. -/
def TimelineEventCallback : Ty :=
Ty.fn [(TimelineEvent, true)] Ty.void_

/-- Variant A TimelineService: start requires all three arguments. -/
def TimelineService : Ty :=
Ty.record
  [("start", Ty.fn [(Ty.array Ty.number, false), (Ty.boolean, false), (Ty.number, false)]
      Ty.void_, false),
   ("stop", Ty.fn [] Ty.void_, false),
   ("pause", Ty.fn [] Ty.void_, false),
   ("restart", Ty.fn [] Ty.void_, false),
   ("expired", Ty.record [("listen", Ty.fn [(TimelineEventCallback, false)] Ty.void_, false)],
     false)]

/-- Variant A ICSP event payload. -/
def ICSPEvent : Ty :=
Ty.record [("data", Ty.string_, false)]

/-- Variant A ICSP custom event payload. -/
def ICSPCustomEvent : Ty :=
Ty.record
  [("data", Ty.string_, false),
   ("encode", Ty.string_, false),
   ("flag", Ty.number, false),
   ("value1", Ty.number, false),
   ("value2", Ty.number, false),
   ("value3", Ty.number, false),
   ("id", Ty.number, false),
   ("type", Ty.number, false)]

/-- Variant A ICSP event callback: the event argument is required. -/
def ICSPEventCallback : Ty :=
Ty.fn [(ICSPEvent, false)] Ty.void_

/-- Variant A ICSP custom event callback: the event argument is required. -/
def ICSPCustomEventCallback : Ty :=
Ty.fn [(ICSPCustomEvent, false)] Ty.void_

/-- Variant A ParameterUpdate record at a value type. -/
def ParameterUpdate (t : Ty) : Ty :=
Ty.record
  [("path", Ty.string_, false),
   ("id", Ty.string_, false),
   ("value", t, false),
   ("newValue", t, false),
   ("oldValue", t, false),
   ("normalized", Ty.number, false),
   ("source", Ty.object_, false)]

/-- Variant A parameter update callback: the event argument is required. -/
def ICSPParameterUpdateCallback (t : Ty) : Ty :=
Ty.fn [(ParameterUpdate t, false)] Ty.void_

/-- Variant A ICSPButton: a watch surface over boolean updates. -/
def ICSPButton : Ty :=
Ty.record [("watch", Ty.fn [(ICSPParameterUpdateCallback Ty.boolean, false)] Ty.void_, false)]

/-- Variant A ICSPChannel: a watch surface over boolean updates. -/
def ICSPChannel : Ty :=
Ty.record [("watch", Ty.fn [(ICSPParameterUpdateCallback Ty.boolean, false)] Ty.void_, false)]

/-- Variant A ICSPLevel: a watch surface over numeric updates. -/
def ICSPLevel : Ty :=
Ty.record [("watch", Ty.fn [(ICSPParameterUpdateCallback Ty.number, false)] Ty.void_, false)]

/-- Variant A ICSPPort. -/
def ICSPPort : Ty :=
Ty.record
  [("button", Ty.array (Ty.readonly ICSPButton), false),
   ("channel", Ty.array (Ty.inter Ty.boolean ICSPChannel), false),
   ("command", Ty.fn [(ICSPEventCallback, false)] Ty.void_, false),
   ("custom", Ty.fn [(ICSPCustomEventCallback, false)] Ty.void_, false),
   ("level", Ty.array (Ty.inter Ty.number ICSPLevel), false),
   ("send_command", Ty.fn [(Ty.string_, false)] Ty.void_, false),
   ("send_string", Ty.fn [(Ty.string_, false)] Ty.void_, false),
   ("string", Ty.fn [(ICSPEventCallback, false)] Ty.void_, false)]

/-- Variant A online and offline callback for the ICSP driver. -/
def ICSPOnlineOfflineCallback : Ty :=
Ty.fn [] Ty.void_

/-- Variant A ISCPDevice configuration record, all fields readonly strings. -/
def ISCPDevice : Ty :=
Ty.record
  [("classname", Ty.readonly Ty.string_, false),
   ("container", Ty.readonly Ty.string_, false),
   ("description", Ty.readonly Ty.string_, false),
   ("descriptorlocation", Ty.readonly Ty.string_, false),
   ("devicestate", Ty.readonly Ty.string_, false),
   ("family", Ty.readonly Ty.string_, false),
   ("guid", Ty.readonly Ty.string_, false),
   ("location", Ty.readonly Ty.string_, false),
   ("manufacturer", Ty.readonly Ty.string_, false),
   ("model", Ty.readonly Ty.string_, false),
   ("name", Ty.readonly Ty.string_, false),
   ("protocolversion", Ty.readonly Ty.string_, false),
   ("serialnumber", Ty.readonly Ty.string_, false),
   ("softwareversion", Ty.readonly Ty.string_, false),
   ("venue", Ty.readonly Ty.string_, false),
   ("version", Ty.readonly Ty.string_, false)]

/-- Variant A ICSPConfiguration. -/
def ICSPConfiguration : Ty :=
Ty.record [("device", ISCPDevice, false)]

/-- Variant A ICSPDriver. -/
def ICSPDriver : Ty :=
Ty.record
  [("configuration", ICSPConfiguration, false),
   ("port", Ty.array ICSPPort, false),
   ("online", Ty.fn [(ICSPOnlineOfflineCallback, false)] Ty.void_, false),
   ("offline", Ty.fn [(ICSPOnlineOfflineCallback, false)] Ty.void_, false),
   ("isOnline", Ty.fn [] Ty.boolean, false),
   ("isOffline", Ty.fn [] Ty.boolean, false)]

/-- Variant A Context: devices, a dual-natured log, and services.  There
is no export member in this variant. -/
def Context : Ty :=
Ty.record
  [("devices", Devices, false),
   ("log", Ty.inter msgFn Log, false),
   ("services", Services, false)]

end MuseA

namespace MuseB

/-- Variant B log threshold enumeration, named LogLevel in the source. -/
def LogLevel : Ty :=
Ty.union
  (Ty.union (Ty.union (Ty.union (Ty.lit ("TRACE")) (Ty.lit ("DEBUG"))) (Ty.lit ("INFO")))
    (Ty.lit ("WARNING")))
  (Ty.lit ("ERROR"))

/-- Variant B Log interface. -/
def Log : Ty :=
Ty.record
  [("level", LogLevel, false),
   ("trace", msgFn, false),
   ("debug", msgFn, false),
   ("info", msgFn, false),
   ("warn", msgFn, false),
   ("error", msgFn, false)]

/-- Variant B Devices interface; get returns the plain type parameter. -/
def Devices : Ty :=
Ty.record
  [("get", Ty.fn [(Ty.string_, false)] (Ty.tvar ("T")), false),
   ("has", Ty.fn [(Ty.string_, false)] Ty.boolean, false),
   ("ids", Ty.fn [] (Ty.array Ty.string_), false)]

/-- Variant B Services interface; get returns the plain type parameter. -/
def Services : Ty :=
Ty.record
  [("get", Ty.fn [(Ty.string_, false)] (Ty.tvar ("T")), false)]

/-- Variant B provider enumeration, named Provider in the source. -/
def Provider : Ty :=
Ty.union (Ty.union (Ty.lit ("groovy")) (Ty.lit ("javascript"))) (Ty.lit ("python"))

/-- Variant B ProgramManifest record; disabled and script are required. -/
def ProgramManifest : Ty :=
Ty.record
  [("id", Ty.string_, false),
   ("name", Ty.union Ty.string_ Ty.undef, true),
   ("description", Ty.union Ty.string_ Ty.undef, true),
   ("version", Ty.union Ty.string_ Ty.undef, true),
   ("disabled", Ty.boolean, false),
   ("provider", Provider, false),
   ("scope", Ty.union Ty.string_ Ty.undef, true),
   ("script", Ty.string_, false),
   ("envvars", Ty.union (Ty.recordStr Ty.string_) Ty.undef, true),
   ("files", Ty.union (Ty.array Ty.string_) Ty.undef, true),
   ("plugins", Ty.union (Ty.array Ty.string_) Ty.undef, true)]

/-- Variant B Event interface. -/
def Event : Ty :=
Ty.record
  [("path", Ty.string_, false),
   ("id", Ty.string_, false),
   ("arguments", Ty.record [("data", Ty.object_, false)], false),
   ("oldValue", Ty.object_, false),
   ("source", Ty.object_, false)]

/-- Variant B TimelineEvent: Event with a refined arguments payload that
keeps the data field. -/
def TimelineEvent : Ty :=
Ty.record
  [("path", Ty.string_, false),
   ("id", Ty.string_, false),
   ("arguments",
     Ty.record
       [("data", Ty.object_, false),
        ("sequence", Ty.number, false),
        ("time", Ty.number, false),
        ("repetition", Ty.number, false)], false),
   ("oldValue", Ty.object_, false),
   ("source", Ty.object_, false)]

/-- Variant B TimelineEventCallback: the event argument is optional. -/
def TimelineEventCallback : Ty :=
Ty.fn [(TimelineEvent, true)] Ty.void_

/-- Variant B TimelineService: relative and repeat are optional. -/
def TimelineService : Ty :=
Ty.record
  [("start", Ty.fn [(Ty.array Ty.number, false), (Ty.boolean, true), (Ty.number, true)]
      Ty.void_, false),
   ("stop", Ty.fn [] Ty.void_, false),
   ("pause", Ty.fn [] Ty.void_, false),
   ("restart", Ty.fn [] Ty.void_, false),
   ("expired", Ty.record [("listen", Ty.fn [(TimelineEventCallback, false)] Ty.void_, false)],
     false)]

/-- Variant B NetLinxClientService. -/
def NetLinxClientService : Ty :=
Ty.record
  [("online", Ty.record [("listen", Ty.fn [(Ty.fn [] Ty.void_, false)] Ty.void_, false)], false),
   ("offline", Ty.record [("listen", Ty.fn [(Ty.fn [] Ty.void_, false)] Ty.void_, false)], false),
   ("string", Ty.record [("listen", Ty.fn [(Ty.fn [] Ty.void_, false)] Ty.void_, false)], false),
   ("command", Ty.record [("listen", Ty.fn [(Ty.fn [] Ty.void_, false)] Ty.void_, false)], false),
   ("connect", Ty.fn [(Ty.string_, false), (Ty.number, false), (Ty.string_, true),
      (Ty.string_, true)] Ty.void_, false),
   ("disconnect", Ty.fn [] Ty.void_, false),
   ("send_command", Ty.fn [(Ty.string_, false)] Ty.void_, false),
   ("send_string", Ty.fn [(Ty.string_, false)] Ty.void_, false)]

/-- Variant B SessionLogoutEvent. -/
def SessionLogoutEvent : Ty :=
Ty.record [("username", Ty.string_, false)]

/-- Variant B SessionLoginEvent, extending SessionLogoutEvent. -/
def SessionLoginEvent : Ty :=
Ty.record
  [("username", Ty.string_, false),
   ("status", Ty.boolean, false),
   ("statusMsg", Ty.string_, false),
   ("permissions", Ty.string_, false)]

/-- Variant B SessionService. -/
def SessionService : Ty :=
Ty.record
  [("onLogin", Ty.record [("listen",
      Ty.fn [(Ty.fn [(SessionLoginEvent, true)] Ty.void_, false)] Ty.void_, false)], false),
   ("onLogout", Ty.record [("listen",
      Ty.fn [(Ty.fn [(SessionLogoutEvent, true)] Ty.void_, false)] Ty.void_, false)], false),
   ("login", Ty.fn [(Ty.string_, false), (Ty.string_, false)] Ty.void_, false),
   ("logout", Ty.fn [(Ty.string_, false)] Ty.void_, false)]

/-- Variant B SmtpService. -/
def SmtpService : Ty :=
Ty.record
  [("setConfig", Ty.fn [(Ty.string_, false), (Ty.string_, false), (Ty.string_, false),
      (Ty.string_, false), (Ty.number, false), (Ty.boolean, false)] Ty.void_, false),
   ("getConfig", Ty.fn [] Ty.unknown, false),
   ("clearConfig", Ty.fn [] Ty.void_, false),
   ("sendEmail", Ty.fn [(Ty.string_, false), (Ty.string_, false), (Ty.string_, false),
      (Ty.string_, false), (Ty.string_, true), (Ty.string_, true)] Ty.void_, false)]

/-- Variant B ICSP event payload. -/
def ICSPEvent : Ty :=
Ty.record [("data", Ty.string_, false)]

/-- Variant B ICSP custom event payload. -/
def ICSPCustomEvent : Ty :=
Ty.record
  [("data", Ty.string_, false),
   ("encode", Ty.string_, false),
   ("flag", Ty.number, false),
   ("value1", Ty.number, false),
   ("value2", Ty.number, false),
   ("value3", Ty.number, false),
   ("id", Ty.number, false),
   ("type", Ty.number, false)]

/-- Variant B ICSP event callback: the event argument is required. -/
def ICSPEventCallback : Ty :=
Ty.fn [(ICSPEvent, false)] Ty.void_

/-- Variant B ICSP custom event callback: the event argument is required. -/
def ICSPCustomEventCallback : Ty :=
Ty.fn [(ICSPCustomEvent, false)] Ty.void_

/-- Variant B ParameterUpdate record at a value type. -/
def ParameterUpdate (t : Ty) : Ty :=
Ty.record
  [("path", Ty.string_, false),
   ("id", Ty.string_, false),
   ("value", t, false),
   ("newValue", t, false),
   ("oldValue", t, false),
   ("normalized", Ty.number, false),
   ("source", Ty.object_, false)]

/-- Variant B parameter update callback: the event argument is required. -/
def ICSPParameterUpdateCallback (t : Ty) : Ty :=
Ty.fn [(ParameterUpdate t, false)] Ty.void_

/-- Variant B ICSPButton. -/
def ICSPButton : Ty :=
Ty.record [("watch", Ty.fn [(ICSPParameterUpdateCallback Ty.boolean, false)] Ty.void_, false)]

/-- Variant B ICSPChannel. -/
def ICSPChannel : Ty :=
Ty.record [("watch", Ty.fn [(ICSPParameterUpdateCallback Ty.boolean, false)] Ty.void_, false)]

/-- Variant B ICSPLevel. -/
def ICSPLevel : Ty :=
Ty.record [("watch", Ty.fn [(ICSPParameterUpdateCallback Ty.number, false)] Ty.void_, false)]

/-- Variant B ICSPPort. -/
def ICSPPort : Ty :=
Ty.record
  [("button", Ty.array (Ty.readonly ICSPButton), false),
   ("channel", Ty.array (Ty.inter Ty.boolean ICSPChannel), false),
   ("command", Ty.fn [(ICSPEventCallback, false)] Ty.void_, false),
   ("custom", Ty.fn [(ICSPCustomEventCallback, false)] Ty.void_, false),
   ("level", Ty.array (Ty.inter Ty.number ICSPLevel), false),
   ("send_command", Ty.fn [(Ty.string_, false)] Ty.void_, false),
   ("send_string", Ty.fn [(Ty.string_, false)] Ty.void_, false),
   ("string", Ty.fn [(ICSPEventCallback, false)] Ty.void_, false)]

/-- Variant B online and offline callback for the ICSP driver. -/
def ICSPOnlineOfflineCallback : Ty :=
Ty.fn [] Ty.void_

/-- Variant B ISCPDevice record, all fields readonly strings. -/
def ISCPDevice : Ty :=
Ty.record
  [("classname", Ty.readonly Ty.string_, false),
   ("container", Ty.readonly Ty.string_, false),
   ("description", Ty.readonly Ty.string_, false),
   ("descriptorlocation", Ty.readonly Ty.string_, false),
   ("devicestate", Ty.readonly Ty.string_, false),
   ("family", Ty.readonly Ty.string_, false),
   ("guid", Ty.readonly Ty.string_, false),
   ("location", Ty.readonly Ty.string_, false),
   ("manufacturer", Ty.readonly Ty.string_, false),
   ("model", Ty.readonly Ty.string_, false),
   ("name", Ty.readonly Ty.string_, false),
   ("protocolversion", Ty.readonly Ty.string_, false),
   ("serialnumber", Ty.readonly Ty.string_, false),
   ("softwareversion", Ty.readonly Ty.string_, false),
   ("venue", Ty.readonly Ty.string_, false),
   ("version", Ty.readonly Ty.string_, false)]

/-- Variant B ICSPConfiguration. -/
def ICSPConfiguration : Ty :=
Ty.record [("device", ISCPDevice, false)]

/-- Variant B ICSPDriver. -/
def ICSPDriver : Ty :=
Ty.record
  [("configuration", ICSPConfiguration, false),
   ("port", Ty.array ICSPPort, false),
   ("online", Ty.fn [(ICSPOnlineOfflineCallback, false)] Ty.void_, false),
   ("offline", Ty.fn [(ICSPOnlineOfflineCallback, false)] Ty.void_, false),
   ("isOnline", Ty.fn [] Ty.boolean, false),
   ("isOffline", Ty.fn [] Ty.boolean, false)]

/-- Variant B Context: devices, a dual-natured log, and services.  There
is no export member in this variant. -/
def Context : Ty :=
Ty.record
  [("devices", Devices, false),
   ("log", Ty.inter msgFn Log, false),
   ("services", Services, false)]

end MuseB

namespace MuseC

/-- Variant C log threshold enumeration. -/
def LogLevel : Ty :=
Ty.union
  (Ty.union (Ty.union (Ty.union (Ty.lit ("TRACE")) (Ty.lit ("DEBUG"))) (Ty.lit ("INFO")))
    (Ty.lit ("WARNING")))
  (Ty.lit ("ERROR"))

/-- Variant C LogFunction: a single message of type any, returning void. -/
def LogFunction : Ty :=
Ty.fn [(Ty.any, false)] Ty.void_

/-- Variant C Log interface. -/
def Log : Ty :=
Ty.record
  [("level", LogLevel, false),
   ("trace", msgFn, false),
   ("debug", msgFn, false),
   ("info", msgFn, false),
   ("warn", msgFn, false),
   ("error", msgFn, false)]

/-- Variant C Devices interface; get returns the plain type parameter. -/
def Devices : Ty :=
Ty.record
  [("get", Ty.fn [(Ty.string_, false)] (Ty.tvar ("T")), false),
   ("has", Ty.fn [(Ty.string_, false)] Ty.boolean, false),
   ("ids", Ty.fn [] (Ty.array Ty.string_), false)]

/-- Variant C Services interface; get returns the plain type parameter. -/
def Services : Ty :=
Ty.record
  [("get", Ty.fn [(Ty.string_, false)] (Ty.tvar ("T")), false)]

/-- Variant C Export interface: dispatch takes a path and an optional
arguments record, update takes a path, a value and an optional normalized
number; both return void. -/
def Export : Ty :=
Ty.record
  [("dispatch", Ty.fn [(Ty.string_, false), (Ty.tvar ("T"), true)] Ty.void_, false),
   ("update", Ty.fn [(Ty.string_, false), (Ty.tvar ("T"), false), (Ty.number, true)]
      Ty.void_, false)]

/-- Variant C Event interface at a value type: the source back-reference
is a string and the arguments payload is a bare object. -/
def Event (t : Ty) : Ty :=
Ty.record
  [("path", Ty.string_, false),
   ("id", Ty.string_, false),
   ("arguments", Ty.object_, false),
   ("oldValue", t, false),
   ("source", Ty.string_, false)]

/-- Variant C TimelineEvent: Event at the default value type with the
arguments payload replaced by sequence, time and repetition; the data
field of the earlier variants is gone. -/
def TimelineEvent : Ty :=
Ty.record
  [("path", Ty.string_, false),
   ("id", Ty.string_, false),
   ("arguments",
     Ty.record
       [("sequence", Ty.number, false),
        ("time", Ty.number, false),
        ("repetition", Ty.number, false)], false),
   ("oldValue", Ty.any, false),
   ("source", Ty.string_, false)]

/-- Variant C TimelineEventCallback: the event argument is optional. -/
def TimelineEventCallback : Ty :=
Ty.fn [(TimelineEvent, true)] Ty.void_

/-- Variant C TimelineService: relative and repeat are optional. -/
def TimelineService : Ty :=
Ty.record
  [("start", Ty.fn [(Ty.array Ty.number, false), (Ty.boolean, true), (Ty.number, true)]
      Ty.void_, false),
   ("stop", Ty.fn [] Ty.void_, false),
   ("pause", Ty.fn [] Ty.void_, false),
   ("restart", Ty.fn [] Ty.void_, false),
   ("expired", Ty.record [("listen", Ty.fn [(TimelineEventCallback, false)] Ty.void_, false)],
     false)]

/-- Variant C program provider enumeration, in the Program namespace. -/
def Program.Provider : Ty :=
Ty.union (Ty.union (Ty.lit ("groovy")) (Ty.lit ("javascript"))) (Ty.lit ("python"))

/-- Variant C Program.ProgramFile manifest: only id and provider are
required; disabled, envvars, scope and script are optional. -/
def Program.ProgramFile : Ty :=
Ty.record
  [("id", Ty.string_, false),
   ("description", Ty.string_, true),
   ("disabled", Ty.boolean, true),
   ("envvars", Ty.recordStr Ty.string_, true),
   ("scope", Ty.string_, true),
   ("provider", Program.Provider, false),
   ("script", Ty.string_, true)]

/-- Variant C Program.ExtendedProgramFile, extending ProgramFile. -/
def Program.ExtendedProgramFile : Ty :=
Ty.record
  [("id", Ty.string_, false),
   ("description", Ty.string_, true),
   ("disabled", Ty.boolean, true),
   ("envvars", Ty.recordStr Ty.string_, true),
   ("scope", Ty.string_, true),
   ("provider", Program.Provider, false),
   ("script", Ty.string_, true),
   ("name", Ty.string_, true),
   ("version", Ty.string_, true),
   ("author", Ty.string_, true),
   ("files", Ty.array Ty.string_, true),
   ("plugins", Ty.array Ty.string_, true)]

/-- Variant C NetLinxClientService. -/
def NetLinxClientService : Ty :=
Ty.record
  [("online", Ty.record [("listen", Ty.fn [(Ty.fn [] Ty.void_, false)] Ty.void_, false)], false),
   ("offline", Ty.record [("listen", Ty.fn [(Ty.fn [] Ty.void_, false)] Ty.void_, false)], false),
   ("string", Ty.record [("listen", Ty.fn [(Ty.fn [] Ty.void_, false)] Ty.void_, false)], false),
   ("command", Ty.record [("listen", Ty.fn [(Ty.fn [] Ty.void_, false)] Ty.void_, false)], false),
   ("connect", Ty.fn [(Ty.string_, false), (Ty.number, false), (Ty.string_, true),
      (Ty.string_, true)] Ty.void_, false),
   ("disconnect", Ty.fn [] Ty.void_, false),
   ("send_command", Ty.fn [(Ty.string_, false)] Ty.void_, false),
   ("send_string", Ty.fn [(Ty.string_, false)] Ty.void_, false)]

/-- Variant C SessionLogoutEvent. -/
def SessionLogoutEvent : Ty :=
Ty.record [("username", Ty.string_, false)]

/-- Variant C SessionLoginEvent. -/
def SessionLoginEvent : Ty :=
Ty.record
  [("username", Ty.string_, false),
   ("status", Ty.boolean, false),
   ("statusMsg", Ty.string_, false),
   ("permissions", Ty.string_, false)]

/-- Variant C SessionService. -/
def SessionService : Ty :=
Ty.record
  [("onLogin", Ty.record [("listen",
      Ty.fn [(Ty.fn [(SessionLoginEvent, true)] Ty.void_, false)] Ty.void_, false)], false),
   ("onLogout", Ty.record [("listen",
      Ty.fn [(Ty.fn [(SessionLogoutEvent, true)] Ty.void_, false)] Ty.void_, false)], false),
   ("login", Ty.fn [(Ty.string_, false), (Ty.string_, false)] Ty.void_, false),
   ("logout", Ty.fn [(Ty.string_, false)] Ty.void_, false)]

/-- Variant C SmtpService. -/
def SmtpService : Ty :=
Ty.record
  [("setConfig", Ty.fn [(Ty.string_, false), (Ty.string_, false), (Ty.string_, false),
      (Ty.string_, false), (Ty.number, false), (Ty.boolean, false)] Ty.void_, false),
   ("getConfig", Ty.fn [] Ty.unknown, false),
   ("clearConfig", Ty.fn [] Ty.void_, false),
   ("sendEmail", Ty.fn [(Ty.string_, false), (Ty.string_, false), (Ty.string_, false),
      (Ty.string_, false), (Ty.string_, true), (Ty.string_, true)] Ty.void_, false)]

/-- Variant C ICSP event payload, in the ICSP namespace. -/
def ICSP.Event : Ty :=
Ty.record [("data", Ty.string_, false)]

/-- Variant C ICSP custom event payload. -/
def ICSP.CustomEvent : Ty :=
Ty.record
  [("data", Ty.string_, false),
   ("encode", Ty.string_, false),
   ("flag", Ty.number, false),
   ("value1", Ty.number, false),
   ("value2", Ty.number, false),
   ("value3", Ty.number, false),
   ("id", Ty.number, false),
   ("type", Ty.number, false)]

/-- Variant C ICSP event callback: the event argument became optional. -/
def ICSP.EventCallback : Ty :=
Ty.fn [(ICSP.Event, true)] Ty.void_

/-- Variant C ICSP custom event callback: the event argument became
optional. -/
def ICSP.CustomEventCallback : Ty :=
Ty.fn [(ICSP.CustomEvent, true)] Ty.void_

/-- Variant C ParameterUpdate record at a value type. -/
def ParameterUpdate (t : Ty) : Ty :=
Ty.record
  [("path", Ty.string_, false),
   ("id", Ty.string_, false),
   ("value", t, false),
   ("newValue", t, false),
   ("oldValue", t, false),
   ("normalized", Ty.number, false),
   ("source", Ty.object_, false)]

/-- Variant C parameter update callback: the event argument became
optional. -/
def ICSP.ParameterUpdateCallback (t : Ty) : Ty :=
Ty.fn [(ParameterUpdate t, true)] Ty.void_

/-- Variant C ICSP.Button. -/
def ICSP.Button : Ty :=
Ty.record [("watch", Ty.fn [(ICSP.ParameterUpdateCallback Ty.boolean, false)] Ty.void_, false)]

/-- Variant C ICSP.Channel. -/
def ICSP.Channel : Ty :=
Ty.record [("watch", Ty.fn [(ICSP.ParameterUpdateCallback Ty.boolean, false)] Ty.void_, false)]

/-- Variant C ICSP.Level. -/
def ICSP.Level : Ty :=
Ty.record [("watch", Ty.fn [(ICSP.ParameterUpdateCallback Ty.number, false)] Ty.void_, false)]

/-- Variant C ICSP.Port. -/
def ICSP.Port : Ty :=
Ty.record
  [("button", Ty.array (Ty.readonly ICSP.Button), false),
   ("channel", Ty.array (Ty.inter Ty.boolean ICSP.Channel), false),
   ("command", Ty.fn [(ICSP.EventCallback, false)] Ty.void_, false),
   ("custom", Ty.fn [(ICSP.CustomEventCallback, false)] Ty.void_, false),
   ("level", Ty.array (Ty.inter Ty.number ICSP.Level), false),
   ("send_command", Ty.fn [(Ty.string_, false)] Ty.void_, false),
   ("send_string", Ty.fn [(Ty.string_, false)] Ty.void_, false),
   ("string", Ty.fn [(ICSP.EventCallback, false)] Ty.void_, false)]

/-- Variant C online and offline callback for the ICSP driver. -/
def ICSP.OnlineOfflineCallback : Ty :=
Ty.fn [] Ty.void_

/-- Variant C ICSP.Device record, all fields readonly strings. -/
def ICSP.Device : Ty :=
Ty.record
  [("classname", Ty.readonly Ty.string_, false),
   ("container", Ty.readonly Ty.string_, false),
   ("description", Ty.readonly Ty.string_, false),
   ("descriptorlocation", Ty.readonly Ty.string_, false),
   ("devicestate", Ty.readonly Ty.string_, false),
   ("family", Ty.readonly Ty.string_, false),
   ("guid", Ty.readonly Ty.string_, false),
   ("location", Ty.readonly Ty.string_, false),
   ("manufacturer", Ty.readonly Ty.string_, false),
   ("model", Ty.readonly Ty.string_, false),
   ("name", Ty.readonly Ty.string_, false),
   ("protocolversion", Ty.readonly Ty.string_, false),
   ("serialnumber", Ty.readonly Ty.string_, false),
   ("softwareversion", Ty.readonly Ty.string_, false),
   ("venue", Ty.readonly Ty.string_, false),
   ("version", Ty.readonly Ty.string_, false)]

/-- Variant C ICSP.Configuration. -/
def ICSP.Configuration : Ty :=
Ty.record [("device", ICSP.Device, false)]

/-- Variant C ICSP.Driver. -/
def ICSP.Driver : Ty :=
Ty.record
  [("configuration", ICSP.Configuration, false),
   ("port", Ty.array ICSP.Port, false),
   ("online", Ty.fn [(ICSP.OnlineOfflineCallback, false)] Ty.void_, false),
   ("offline", Ty.fn [(ICSP.OnlineOfflineCallback, false)] Ty.void_, false),
   ("isOnline", Ty.fn [] Ty.boolean, false),
   ("isOffline", Ty.fn [] Ty.boolean, false)]

/-- Variant C Context: devices, the dual-natured log, services and the
export surface. -/
def Context : Ty :=
Ty.record
  [("devices", Devices, false),
   ("log", Ty.inter LogFunction Log, false),
   ("services", Services, false),
   ("export", Export, false)]

end MuseC

/-- The callable API-surface members of variant A, keyed by the role each
member plays in the injected context object graph.  The keys are stable
across variants so that successive revisions of the same member can be
compared. -/
def membersA : List (String × Ty) :=
[(("Devices.get"), memberFn MuseA.Devices ("get")),
 (("Devices.has"), memberFn MuseA.Devices ("has")),
 (("Devices.ids"), memberFn MuseA.Devices ("ids")),
 (("Context.log.call"), callPart (memberFn MuseA.Context ("log"))),
 (("Log.trace"), memberFn MuseA.Log ("trace")),
 (("Log.debug"), memberFn MuseA.Log ("debug")),
 (("Log.info"), memberFn MuseA.Log ("info")),
 (("Log.warn"), memberFn MuseA.Log ("warn")),
 (("Log.error"), memberFn MuseA.Log ("error")),
 (("Services.get"), memberFn MuseA.Services ("get")),
 (("TimelineService.start"), memberFn MuseA.TimelineService ("start")),
 (("TimelineService.stop"), memberFn MuseA.TimelineService ("stop")),
 (("TimelineService.pause"), memberFn MuseA.TimelineService ("pause")),
 (("TimelineService.restart"), memberFn MuseA.TimelineService ("restart")),
 (("TimelineService.expired.listen"),
   memberFn (memberFn MuseA.TimelineService ("expired")) ("listen")),
 (("ICSP.Driver.online"), memberFn MuseA.ICSPDriver ("online")),
 (("ICSP.Driver.offline"), memberFn MuseA.ICSPDriver ("offline")),
 (("ICSP.Driver.isOnline"), memberFn MuseA.ICSPDriver ("isOnline")),
 (("ICSP.Driver.isOffline"), memberFn MuseA.ICSPDriver ("isOffline")),
 (("ICSP.Port.command"), memberFn MuseA.ICSPPort ("command")),
 (("ICSP.Port.custom"), memberFn MuseA.ICSPPort ("custom")),
 (("ICSP.Port.string"), memberFn MuseA.ICSPPort ("string")),
 (("ICSP.Port.send_command"), memberFn MuseA.ICSPPort ("send_command")),
 (("ICSP.Port.send_string"), memberFn MuseA.ICSPPort ("send_string")),
 (("ICSP.Button.watch"), memberFn MuseA.ICSPButton ("watch")),
 (("ICSP.Channel.watch"), memberFn MuseA.ICSPChannel ("watch")),
 (("ICSP.Level.watch"), memberFn MuseA.ICSPLevel ("watch"))]

/-- The callable API-surface members of variant B. -/
def membersB : List (String × Ty) :=
[(("Devices.get"), memberFn MuseB.Devices ("get")),
 (("Devices.has"), memberFn MuseB.Devices ("has")),
 (("Devices.ids"), memberFn MuseB.Devices ("ids")),
 (("Context.log.call"), callPart (memberFn MuseB.Context ("log"))),
 (("Log.trace"), memberFn MuseB.Log ("trace")),
 (("Log.debug"), memberFn MuseB.Log ("debug")),
 (("Log.info"), memberFn MuseB.Log ("info")),
 (("Log.warn"), memberFn MuseB.Log ("warn")),
 (("Log.error"), memberFn MuseB.Log ("error")),
 (("Services.get"), memberFn MuseB.Services ("get")),
 (("TimelineService.start"), memberFn MuseB.TimelineService ("start")),
 (("TimelineService.stop"), memberFn MuseB.TimelineService ("stop")),
 (("TimelineService.pause"), memberFn MuseB.TimelineService ("pause")),
 (("TimelineService.restart"), memberFn MuseB.TimelineService ("restart")),
 (("TimelineService.expired.listen"),
   memberFn (memberFn MuseB.TimelineService ("expired")) ("listen")),
 (("NetLinxClientService.connect"), memberFn MuseB.NetLinxClientService ("connect")),
 (("NetLinxClientService.disconnect"), memberFn MuseB.NetLinxClientService ("disconnect")),
 (("NetLinxClientService.send_command"), memberFn MuseB.NetLinxClientService ("send_command")),
 (("NetLinxClientService.send_string"), memberFn MuseB.NetLinxClientService ("send_string")),
 (("NetLinxClientService.online.listen"),
   memberFn (memberFn MuseB.NetLinxClientService ("online")) ("listen")),
 (("NetLinxClientService.offline.listen"),
   memberFn (memberFn MuseB.NetLinxClientService ("offline")) ("listen")),
 (("NetLinxClientService.string.listen"),
   memberFn (memberFn MuseB.NetLinxClientService ("string")) ("listen")),
 (("NetLinxClientService.command.listen"),
   memberFn (memberFn MuseB.NetLinxClientService ("command")) ("listen")),
 (("SessionService.login"), memberFn MuseB.SessionService ("login")),
 (("SessionService.logout"), memberFn MuseB.SessionService ("logout")),
 (("SessionService.onLogin.listen"),
   memberFn (memberFn MuseB.SessionService ("onLogin")) ("listen")),
 (("SessionService.onLogout.listen"),
   memberFn (memberFn MuseB.SessionService ("onLogout")) ("listen")),
 (("SmtpService.setConfig"), memberFn MuseB.SmtpService ("setConfig")),
 (("SmtpService.getConfig"), memberFn MuseB.SmtpService ("getConfig")),
 (("SmtpService.clearConfig"), memberFn MuseB.SmtpService ("clearConfig")),
 (("SmtpService.sendEmail"), memberFn MuseB.SmtpService ("sendEmail")),
 (("ICSP.Driver.online"), memberFn MuseB.ICSPDriver ("online")),
 (("ICSP.Driver.offline"), memberFn MuseB.ICSPDriver ("offline")),
 (("ICSP.Driver.isOnline"), memberFn MuseB.ICSPDriver ("isOnline")),
 (("ICSP.Driver.isOffline"), memberFn MuseB.ICSPDriver ("isOffline")),
 (("ICSP.Port.command"), memberFn MuseB.ICSPPort ("command")),
 (("ICSP.Port.custom"), memberFn MuseB.ICSPPort ("custom")),
 (("ICSP.Port.string"), memberFn MuseB.ICSPPort ("string")),
 (("ICSP.Port.send_command"), memberFn MuseB.ICSPPort ("send_command")),
 (("ICSP.Port.send_string"), memberFn MuseB.ICSPPort ("send_string")),
 (("ICSP.Button.watch"), memberFn MuseB.ICSPButton ("watch")),
 (("ICSP.Channel.watch"), memberFn MuseB.ICSPChannel ("watch")),
 (("ICSP.Level.watch"), memberFn MuseB.ICSPLevel ("watch"))]

/-- The callable API-surface members of variant C. -/
def membersC : List (String × Ty) :=
[(("Devices.get"), memberFn MuseC.Devices ("get")),
 (("Devices.has"), memberFn MuseC.Devices ("has")),
 (("Devices.ids"), memberFn MuseC.Devices ("ids")),
 (("Context.log.call"), callPart (memberFn MuseC.Context ("log"))),
 (("Log.trace"), memberFn MuseC.Log ("trace")),
 (("Log.debug"), memberFn MuseC.Log ("debug")),
 (("Log.info"), memberFn MuseC.Log ("info")),
 (("Log.warn"), memberFn MuseC.Log ("warn")),
 (("Log.error"), memberFn MuseC.Log ("error")),
 (("Services.get"), memberFn MuseC.Services ("get")),
 (("Export.dispatch"), memberFn MuseC.Export ("dispatch")),
 (("Export.update"), memberFn MuseC.Export ("update")),
 (("TimelineService.start"), memberFn MuseC.TimelineService ("start")),
 (("TimelineService.stop"), memberFn MuseC.TimelineService ("stop")),
 (("TimelineService.pause"), memberFn MuseC.TimelineService ("pause")),
 (("TimelineService.restart"), memberFn MuseC.TimelineService ("restart")),
 (("TimelineService.expired.listen"),
   memberFn (memberFn MuseC.TimelineService ("expired")) ("listen")),
 (("NetLinxClientService.connect"), memberFn MuseC.NetLinxClientService ("connect")),
 (("NetLinxClientService.disconnect"), memberFn MuseC.NetLinxClientService ("disconnect")),
 (("NetLinxClientService.send_command"), memberFn MuseC.NetLinxClientService ("send_command")),
 (("NetLinxClientService.send_string"), memberFn MuseC.NetLinxClientService ("send_string")),
 (("NetLinxClientService.online.listen"),
   memberFn (memberFn MuseC.NetLinxClientService ("online")) ("listen")),
 (("NetLinxClientService.offline.listen"),
   memberFn (memberFn MuseC.NetLinxClientService ("offline")) ("listen")),
 (("NetLinxClientService.string.listen"),
   memberFn (memberFn MuseC.NetLinxClientService ("string")) ("listen")),
 (("NetLinxClientService.command.listen"),
   memberFn (memberFn MuseC.NetLinxClientService ("command")) ("listen")),
 (("SessionService.login"), memberFn MuseC.SessionService ("login")),
 (("SessionService.logout"), memberFn MuseC.SessionService ("logout")),
 (("SessionService.onLogin.listen"),
   memberFn (memberFn MuseC.SessionService ("onLogin")) ("listen")),
 (("SessionService.onLogout.listen"),
   memberFn (memberFn MuseC.SessionService ("onLogout")) ("listen")),
 (("SmtpService.setConfig"), memberFn MuseC.SmtpService ("setConfig")),
 (("SmtpService.getConfig"), memberFn MuseC.SmtpService ("getConfig")),
 (("SmtpService.clearConfig"), memberFn MuseC.SmtpService ("clearConfig")),
 (("SmtpService.sendEmail"), memberFn MuseC.SmtpService ("sendEmail")),
 (("ICSP.Driver.online"), memberFn MuseC.ICSP.Driver ("online")),
 (("ICSP.Driver.offline"), memberFn MuseC.ICSP.Driver ("offline")),
 (("ICSP.Driver.isOnline"), memberFn MuseC.ICSP.Driver ("isOnline")),
 (("ICSP.Driver.isOffline"), memberFn MuseC.ICSP.Driver ("isOffline")),
 (("ICSP.Port.command"), memberFn MuseC.ICSP.Port ("command")),
 (("ICSP.Port.custom"), memberFn MuseC.ICSP.Port ("custom")),
 (("ICSP.Port.string"), memberFn MuseC.ICSP.Port ("string")),
 (("ICSP.Port.send_command"), memberFn MuseC.ICSP.Port ("send_command")),
 (("ICSP.Port.send_string"), memberFn MuseC.ICSP.Port ("send_string")),
 (("ICSP.Button.watch"), memberFn MuseC.ICSP.Button ("watch")),
 (("ICSP.Channel.watch"), memberFn MuseC.ICSP.Channel ("watch")),
 (("ICSP.Level.watch"), memberFn MuseC.ICSP.Level ("watch"))]

/-- The members whose accepted callback values the latest variant narrows:
the ICSP event callbacks gained an optional event parameter and the
timeline event payload lost its data field and changed its source type. -/
def latestCallbackChanges : List String :=
[("TimelineService.expired.listen"),
 ("ICSP.Port.command"),
 ("ICSP.Port.custom"),
 ("ICSP.Port.string"),
 ("ICSP.Button.watch"),
 ("ICSP.Channel.watch"),
 ("ICSP.Level.watch")]

/-- A generic member signature: the type parameters with their declared
defaults, the value parameters with their optionality, and the return
type. -/
structure GenericSig where
  tparams : List (String × Option Ty)
  params : List (Ty × Bool)
  ret : Ty

/-- Variant C Export.dispatch: one type parameter T defaulting to a
string-keyed record of any, a required string path, an optional arguments
record of type T, returning void. -/
def MuseC.dispatchSig : GenericSig :=
⟨[(("T"), some (Ty.recordStr Ty.any))],
 [(Ty.string_, false), (Ty.tvar ("T"), true)],
 Ty.void_⟩

/-- Variant C Export.update: one type parameter T defaulting to any, a
required string path, a required value of type T and an optional numeric
normalized argument, returning void. -/
def MuseC.updateSig : GenericSig :=
⟨[(("T"), some Ty.any)],
 [(Ty.string_, false), (Ty.tvar ("T"), false), (Ty.number, true)],
 Ty.void_⟩

/-- Whether a record declares the named member as a required method taking
one message of type any and returning void. -/
def isMsgMethod (l : Ty) (n : String) : Bool :=
match fieldOf l n with
| some (Ty.fn [(Ty.any, false)] Ty.void_, false) => true
| _ => false

/-- The dual log nature asserted by the claim: an intersection of a
one-message function with a record exposing the level field and the five
leveled methods. -/
def dualLog : Ty → Bool
| Ty.inter (Ty.fn [(Ty.any, false)] Ty.void_) l =>
  requiredField l ("level") && isMsgMethod l ("trace") && isMsgMethod l ("debug") &&
    isMsgMethod l ("info") && isMsgMethod l ("warn") && isMsgMethod l ("error")
| _ => false

/-- Whether a Context record declares all four composed surfaces. -/
def contextFour (c : Ty) : Bool :=
hasField c ("devices") && hasField c ("log") && hasField c ("services") && hasField c ("export")

/-- Whether a lookup surface declares get as a generic one-argument string
lookup returning the bare type parameter. -/
def getsPlainT (svc : Ty) : Bool :=
match fieldOf svc ("get") with
| some (Ty.fn [(Ty.string_, false)] (Ty.tvar n), _) => n == ("T")
| _ => false

/-- Whether the get member returns a union of the type parameter with the
string literal type whose text is null. -/
def retUnionWithNullLit (d : Ty) : Bool :=
match fieldOf d ("get") with
| some (Ty.fn _ (Ty.union (Ty.tvar n) (Ty.lit s)), _) => n == ("T") && s == ("null")
| _ => false

/-- Whether the provider field is required and is exactly the three-value
provider enumeration. -/
def providerIsEnum (t : Ty) : Bool :=
match fieldOf t ("provider") with
| some (p, o) => !o && (litLeaves p == [("groovy"), ("javascript"), ("python")])
| none => false

/-- The manifest shape asserted by the claim: id and provider required,
disabled, envvars, scope and script optional. -/
def manifestShapeOk (t : Ty) : Bool :=
requiredField t ("id") && providerIsEnum t && optionalField t ("disabled") &&
  optionalField t ("envvars") && optionalField t ("scope") && optionalField t ("script")

/-- The start signature asserted by the claim: a numeric interval array
first, then an optional relative flag and an optional repeat count,
returning void. -/
def startClaimShape (tl : Ty) : Bool :=
match fieldOf tl ("start") with
| some (Ty.fn [(Ty.array Ty.number, false), (Ty.boolean, r1), (Ty.number, r2)] Ty.void_, _) =>
  r1 && r2
| _ => false

/-- Whether the named member is a zero-argument method. -/
def zeroArg (tl : Ty) (n : String) : Bool :=
match fieldOf tl n with
| some (Ty.fn [] _, _) => true
| _ => false

/-- Whether the expired member exposes a listen method taking a single
required callback argument and returning void. -/
def listenOneCb (tl : Ty) : Bool :=
match fieldOf tl ("expired") with
| some (ex, _) =>
  (match fieldOf ex ("listen") with
   | some (Ty.fn [(_, false)] Ty.void_, _) => true
   | _ => false)
| none => false

/-- The watched value type behind a watch member: the type of the value
field of the parameter update record received by the watch callback. -/
def watchEventValueTy (t : Ty) : Option Ty :=
match fieldOf t ("watch") with
| some (Ty.fn [(cb, _)] _, _) =>
  (match cb with
   | Ty.fn [(ev, _)] _ =>
     (match fieldOf ev ("value") with
      | some (vt, _) => some vt
      | none => none)
   | _ => none)
| _ => none

/-- Claim C1: in every declaration variant the log member of Context is
simultaneously a function callable with a single message argument of any
type returning void, and a record exposing a level field plus the five
leveled methods trace, debug, info, warn and error, each taking a single
message and returning void. -/
theorem c1_log_dual_nature :
  memberFn MuseA.Context ("log") = Ty.inter msgFn MuseA.Log
  ∧ memberFn MuseB.Context ("log") = Ty.inter msgFn MuseB.Log
  ∧ memberFn MuseC.Context ("log") = Ty.inter MuseC.LogFunction MuseC.Log
  ∧ dualLog (memberFn MuseA.Context ("log")) = true
  ∧ dualLog (memberFn MuseB.Context ("log")) = true
  ∧ dualLog (memberFn MuseC.Context ("log")) = true :=
⟨rfl, rfl, rfl, rfl, rfl, rfl⟩

/-- Claim C2 is false on the code: the Context of the earliest variant
declares devices, log and services but no export member, so not every
variant composes all four surfaces. -/
theorem c2_counterexample :
  contextFour MuseA.Context = false ∧ hasField MuseA.Context ("export") = false :=
⟨rfl, rfl⟩

/-- Claim C2 amended: every variant of Context declares devices, log and
services; the export surface is declared only by the latest variant, and
is absent from the two earlier ones. -/
theorem c2_amended :
  hasField MuseA.Context ("devices") = true ∧ hasField MuseA.Context ("log") = true
  ∧ hasField MuseA.Context ("services") = true
  ∧ hasField MuseB.Context ("devices") = true ∧ hasField MuseB.Context ("log") = true
  ∧ hasField MuseB.Context ("services") = true
  ∧ hasField MuseC.Context ("devices") = true ∧ hasField MuseC.Context ("log") = true
  ∧ hasField MuseC.Context ("services") = true
  ∧ contextFour MuseC.Context = true
  ∧ hasField MuseA.Context ("export") = false
  ∧ hasField MuseB.Context ("export") = false :=
⟨rfl, rfl, rfl, rfl, rfl, rfl, rfl, rfl, rfl, rfl, rfl, rfl⟩

/-- Claim C3 is false on the code: between the successive variants B and
C the ICSP port command member narrows its accepted callback values.  The
concrete witness is a callback that requires its event argument: it is
accepted by the variant B declaration, whose event callback parameter is
required, and rejected by the variant C declaration, whose event callback
parameter is optional and therefore demands handlers total on undefined
as well. -/
theorem c3_counterexample :
  noNarrowing membersB membersC = false
  ∧ lookupTy ("ICSP.Port.command") membersB
      = some (Ty.fn [(MuseB.ICSPEventCallback, false)] Ty.void_)
  ∧ lookupTy ("ICSP.Port.command") membersC
      = some (Ty.fn [(MuseC.ICSP.EventCallback, false)] Ty.void_)
  ∧ tsSub (Ty.fn [(MuseB.ICSPEvent, false)] Ty.void_) MuseB.ICSPEventCallback = true
  ∧ tsSub (Ty.fn [(MuseB.ICSPEvent, false)] Ty.void_) MuseC.ICSP.EventCallback = false :=
⟨rfl, rfl, rfl, rfl, rfl⟩

/-- Claim C3 amended: between the first and second variants no common
callable member narrows its accepted inputs; between the second and third
variants the same holds for every common callable member except the seven
callback-accepting members of the timeline and ICSP surfaces, each of
which does narrow its accepted callback values in the latest variant. -/
theorem c3_amended :
  noNarrowing membersA membersB = true
  ∧ noNarrowingExcept membersB membersC latestCallbackChanges = true
  ∧ latestCallbackChanges.all (narrowsAt membersB membersC) = true :=
⟨rfl, rfl, rfl⟩

/-- Claim C4 is false on the code: in the earliest variant Services.get
is declared to return the union of the type parameter with undefined, not
the bare type parameter. -/
theorem c4_counterexample :
  getsPlainT MuseA.Services = false
  ∧ memberFn MuseA.Services ("get")
      = Ty.fn [(Ty.string_, false)] (Ty.union (Ty.tvar ("T")) Ty.undef) :=
⟨rfl, rfl⟩

/-- Claim C4 amended: Services.get is a generic one-argument string
lookup in every variant; it returns the bare type parameter in the two
later variants, while the earliest variant returns the union of the type
parameter with undefined. -/
theorem c4_amended :
  getsPlainT MuseB.Services = true
  ∧ getsPlainT MuseC.Services = true
  ∧ memberFn MuseA.Services ("get")
      = Ty.fn [(Ty.string_, false)] (Ty.union (Ty.tvar ("T")) Ty.undef) :=
⟨rfl, rfl, rfl⟩

/-- Claim C5 is false on the code: in the earliest variant the relative
flag and the repeat count of TimelineService.start are required, not
optional. -/
theorem c5_counterexample :
  startClaimShape MuseA.TimelineService = false
  ∧ memberFn MuseA.TimelineService ("start")
      = Ty.fn [(Ty.array Ty.number, false), (Ty.boolean, false), (Ty.number, false)]
          Ty.void_ :=
⟨rfl, rfl⟩

/-- Claim C5 amended: in every variant TimelineService.start takes an
array of numeric intervals first and declares zero-argument stop, pause
and restart methods and an expired member whose listen takes a single
callback; the relative flag and repeat count are optional in the two
later variants but required in the earliest. -/
theorem c5_amended :
  startClaimShape MuseB.TimelineService = true
  ∧ startClaimShape MuseC.TimelineService = true
  ∧ memberFn MuseA.TimelineService ("start")
      = Ty.fn [(Ty.array Ty.number, false), (Ty.boolean, false), (Ty.number, false)]
          Ty.void_
  ∧ (zeroArg MuseA.TimelineService ("stop") && zeroArg MuseA.TimelineService ("pause")
      && zeroArg MuseA.TimelineService ("restart")) = true
  ∧ (zeroArg MuseB.TimelineService ("stop") && zeroArg MuseB.TimelineService ("pause")
      && zeroArg MuseB.TimelineService ("restart")) = true
  ∧ (zeroArg MuseC.TimelineService ("stop") && zeroArg MuseC.TimelineService ("pause")
      && zeroArg MuseC.TimelineService ("restart")) = true
  ∧ listenOneCb MuseA.TimelineService = true
  ∧ listenOneCb MuseB.TimelineService = true
  ∧ listenOneCb MuseC.TimelineService = true :=
⟨rfl, rfl, rfl, rfl, rfl, rfl, rfl, rfl, rfl⟩

/-- Claim C6 is false on the code: in the earliest variant the manifest
record requires disabled and script instead of declaring them optional. -/
theorem c6_counterexample :
  manifestShapeOk MuseA.ProgramManifest = false
  ∧ requiredField MuseA.ProgramManifest ("disabled") = true
  ∧ requiredField MuseA.ProgramManifest ("script") = true :=
⟨rfl, rfl, rfl⟩

/-- Claim C6 amended: in every variant the manifest declares id required
and provider required with exactly the three-value provider enumeration,
and declares envvars and scope optional; disabled and script are optional
only in the latest variant and required in the two earlier ones. -/
theorem c6_amended :
  requiredField MuseA.ProgramManifest ("id") = true
  ∧ providerIsEnum MuseA.ProgramManifest = true
  ∧ optionalField MuseA.ProgramManifest ("envvars") = true
  ∧ optionalField MuseA.ProgramManifest ("scope") = true
  ∧ requiredField MuseA.ProgramManifest ("disabled") = true
  ∧ requiredField MuseA.ProgramManifest ("script") = true
  ∧ requiredField MuseB.ProgramManifest ("id") = true
  ∧ providerIsEnum MuseB.ProgramManifest = true
  ∧ optionalField MuseB.ProgramManifest ("envvars") = true
  ∧ optionalField MuseB.ProgramManifest ("scope") = true
  ∧ requiredField MuseB.ProgramManifest ("disabled") = true
  ∧ requiredField MuseB.ProgramManifest ("script") = true
  ∧ manifestShapeOk MuseC.Program.ProgramFile = true :=
⟨rfl, rfl, rfl, rfl, rfl, rfl, rfl, rfl, rfl, rfl, rfl, rfl, rfl⟩

/-- Claim C7: in the variant that declares an Export surface, dispatch
takes a required string path and an optional keyed argument record whose
type parameter defaults to a string-keyed record of any, and update takes
a required string path, a required value of the type parameter and an
optional numeric normalized argument; both return void. -/
theorem c7_export_signatures :
  hasField MuseC.Context ("export") = true
  ∧ memberFn MuseC.Context ("export") = MuseC.Export
  ∧ MuseC.dispatchSig.tparams = [(("T"), some (Ty.recordStr Ty.any))]
  ∧ MuseC.dispatchSig.ret = Ty.void_
  ∧ MuseC.updateSig.tparams = [(("T"), some Ty.any)]
  ∧ MuseC.updateSig.ret = Ty.void_
  ∧ memberFn MuseC.Export ("dispatch") = Ty.fn MuseC.dispatchSig.params MuseC.dispatchSig.ret
  ∧ memberFn MuseC.Export ("update") = Ty.fn MuseC.updateSig.params MuseC.updateSig.ret
  ∧ MuseC.dispatchSig.params = [(Ty.string_, false), (Ty.tvar ("T"), true)]
  ∧ MuseC.updateSig.params = [(Ty.string_, false), (Ty.tvar ("T"), false), (Ty.number, true)] :=
⟨rfl, rfl, rfl, rfl, rfl, rfl, rfl, rfl, rfl, rfl⟩

/-- Claim C8: in every declaration variant the type of the log threshold
field is exactly the five-value enumeration of the string literals TRACE,
DEBUG, INFO, WARNING and ERROR: the level field carries the enumeration,
its literal leaves are exactly those five strings, each of the five is
admitted and a sixth literal or an arbitrary string is not. -/
theorem c8_level_enum :
  fieldOf MuseA.Log ("level") = some (MuseA.MuseLogLevel, false)
  ∧ fieldOf MuseB.Log ("level") = some (MuseB.LogLevel, false)
  ∧ fieldOf MuseC.Log ("level") = some (MuseC.LogLevel, false)
  ∧ litLeaves MuseA.MuseLogLevel = [("TRACE"), ("DEBUG"), ("INFO"), ("WARNING"), ("ERROR")]
  ∧ litLeaves MuseB.LogLevel = [("TRACE"), ("DEBUG"), ("INFO"), ("WARNING"), ("ERROR")]
  ∧ litLeaves MuseC.LogLevel = [("TRACE"), ("DEBUG"), ("INFO"), ("WARNING"), ("ERROR")]
  ∧ tsSub (Ty.lit ("TRACE")) MuseA.MuseLogLevel = true
  ∧ tsSub (Ty.lit ("DEBUG")) MuseA.MuseLogLevel = true
  ∧ tsSub (Ty.lit ("INFO")) MuseA.MuseLogLevel = true
  ∧ tsSub (Ty.lit ("WARNING")) MuseA.MuseLogLevel = true
  ∧ tsSub (Ty.lit ("ERROR")) MuseA.MuseLogLevel = true
  ∧ tsSub (Ty.lit ("FATAL")) MuseA.MuseLogLevel = false
  ∧ tsSub Ty.string_ MuseA.MuseLogLevel = false :=
⟨rfl, rfl, rfl, rfl, rfl, rfl, rfl, rfl, rfl, rfl, rfl, rfl, rfl⟩

/-- Claim C9: across the three historical variants the declared return
type of Devices.get varies between exactly the shapes T, the union of T
with the string literal null, and T: the earliest variant declares the
union with the string literal, and each of the other two declares the
bare type parameter. -/
theorem c9_devices_get_drift :
  memberFn MuseA.Devices ("get")
      = Ty.fn [(Ty.string_, false)] (Ty.union (Ty.tvar ("T")) (Ty.lit ("null")))
  ∧ memberFn MuseB.Devices ("get") = Ty.fn [(Ty.string_, false)] (Ty.tvar ("T"))
  ∧ memberFn MuseC.Devices ("get") = Ty.fn [(Ty.string_, false)] (Ty.tvar ("T"))
  ∧ retUnionWithNullLit MuseA.Devices = true
  ∧ retUnionWithNullLit MuseB.Devices = false
  ∧ retUnionWithNullLit MuseC.Devices = false :=
⟨rfl, rfl, rfl, rfl, rfl, rfl⟩

/-- Claim C10: in every declaration variant the channel elements of an
ICSP port are the intersection of primitive boolean with the Channel
shape whose watch callback receives boolean parameter updates, the level
elements are the intersection of primitive number with the Level shape
whose watch callback receives numeric parameter updates, and the button
elements are read-only Button records exposing only a watch member. -/
theorem c10_port_element_shapes :
  memberFn MuseA.ICSPPort ("channel") = Ty.array (Ty.inter Ty.boolean MuseA.ICSPChannel)
  ∧ memberFn MuseA.ICSPPort ("level") = Ty.array (Ty.inter Ty.number MuseA.ICSPLevel)
  ∧ memberFn MuseA.ICSPPort ("button") = Ty.array (Ty.readonly MuseA.ICSPButton)
  ∧ watchEventValueTy MuseA.ICSPChannel = some Ty.boolean
  ∧ watchEventValueTy MuseA.ICSPLevel = some Ty.number
  ∧ watchEventValueTy MuseA.ICSPButton = some Ty.boolean
  ∧ fieldNames MuseA.ICSPButton = [("watch")]
  ∧ memberFn MuseB.ICSPPort ("channel") = Ty.array (Ty.inter Ty.boolean MuseB.ICSPChannel)
  ∧ memberFn MuseB.ICSPPort ("level") = Ty.array (Ty.inter Ty.number MuseB.ICSPLevel)
  ∧ memberFn MuseB.ICSPPort ("button") = Ty.array (Ty.readonly MuseB.ICSPButton)
  ∧ watchEventValueTy MuseB.ICSPChannel = some Ty.boolean
  ∧ watchEventValueTy MuseB.ICSPLevel = some Ty.number
  ∧ watchEventValueTy MuseB.ICSPButton = some Ty.boolean
  ∧ fieldNames MuseB.ICSPButton = [("watch")]
  ∧ memberFn MuseC.ICSP.Port ("channel") = Ty.array (Ty.inter Ty.boolean MuseC.ICSP.Channel)
  ∧ memberFn MuseC.ICSP.Port ("level") = Ty.array (Ty.inter Ty.number MuseC.ICSP.Level)
  ∧ memberFn MuseC.ICSP.Port ("button") = Ty.array (Ty.readonly MuseC.ICSP.Button)
  ∧ watchEventValueTy MuseC.ICSP.Channel = some Ty.boolean
  ∧ watchEventValueTy MuseC.ICSP.Level = some Ty.number
  ∧ watchEventValueTy MuseC.ICSP.Button = some Ty.boolean
  ∧ fieldNames MuseC.ICSP.Button = [("watch")] :=
⟨rfl, rfl, rfl, rfl, rfl, rfl, rfl, rfl, rfl, rfl, rfl, rfl, rfl, rfl, rfl, rfl, rfl, rfl,
 rfl, rfl, rfl⟩
